import Mathlib

/-!
Verification of the generic web-form-filling engine in `auto_fill.py`.

The Python source drives a live browser through Selenium; this development is a
shallow embedding of its decision logic.  Browser and operating-system effects
(element lookup, DOM polling, the filesystem, `os.path.abspath`, the random
generator) are passed in as explicit environment functions, and each Python
function is translated into a pure Lean function over those environments:

* `fill_native_select` / `select_from_dropdown` — the option-matching logic of
  `fill_any_dropdown` (native `<select>` branch) and `select_from_dropdown`;
* `fill_any_dropdown_custom` — the multi-strategy custom-dropdown opener loop;
* `fill_field` — the per-field dispatcher (upload / dropdown / checkbox /
  radio / textarea / text / fallback branches);
* `extract_form_structure` — the in-page extraction script;
* `check_errors` — the post-submit error scan;
* `submission_loop` — the bounded submit-retry loop of
  `fill_form_from_resume`.

String helpers (`pyLower`, `pyStrip`, `strContains`) mirror Python string
semantics (`str.lower`, `str.strip`, the `in` operator) on character lists.
-/

namespace AutoFill

/-- Python `str.lower()` (ASCII case folding, as used by the source). -/
def pyLower (s : String) : String := ⟨s.data.map Char.toLower⟩

/-- Helper for `strContains`: does `hay` start with `needle`? -/
def listMatchesAt : List Char → List Char → Bool
  | [], _ => true
  | _ :: _, [] => false
  | a :: as, b :: bs => a == b && listMatchesAt as bs

/-- Helper for `strContains`: does `needle` occur anywhere in the list? -/
def listHasSub (needle : List Char) : List Char → Bool
  | [] => needle.isEmpty
  | h :: t => listMatchesAt needle (h :: t) || listHasSub needle t

/-- Python `needle in hay` on strings (the empty needle is in every string). -/
def strContains (hay needle : String) : Bool := listHasSub needle.data hay.data

/-- Python `str.strip()`: drop leading and trailing whitespace. -/
def pyStrip (s : String) : String :=
  ⟨((s.data.dropWhile Char.isWhitespace).reverse.dropWhile Char.isWhitespace).reverse⟩

/-- The placeholder display texts recognized by `fill_any_dropdown` and
`select_from_dropdown`: `["select...", "select", "choose", "--", ""]`. -/
def placeholderTexts : List String := ["select...", "select", "choose", "--", ""]

/-- `valid = [o for o in options if o and o.lower() not in [...]]` in the
native-select branch of `fill_any_dropdown` (auto_fill.py line 601). -/
def validOptions (options : List String) : List String :=
  options.filter (fun o => !o.isEmpty && !placeholderTexts.contains (pyLower o))

/-- The exact-match / partial-match / fallback sequence of the native-select
branch of `fill_any_dropdown` (auto_fill.py lines 614-633).  The partial match
is one-directional: `value.lower() in opt.lower()`.  Returns the display text
of the selected option, or `none` when the branch returns `False`. -/
def nativeFallbackMatch (options : List String) (value : String) : Option String :=
  match options.find? (fun o => pyLower value == pyLower o) with
  | some o => some o
  | none =>
    match options.find? (fun o => strContains (pyLower o) (pyLower value)) with
    | some o => some o
    | none => (validOptions options).head?

/-- The native `<select>` branch of `fill_any_dropdown` (auto_fill.py lines
596-636).  `options` is the list of stripped option display texts; the result
is the display text selected (`none` when the Python code returns `False`).
With an empty value it selects the first valid option, else index 1 when more
than one option exists; when neither applies, control falls through to the
matching loops with the empty value. -/
def fill_native_select (options : List String) (value : String) : Option String :=
  if value.isEmpty then
    match (validOptions options).head? with
    | some v => some v
    | none =>
      if options.length > 1 then options.get? 1
      else nativeFallbackMatch options value
  else nativeFallbackMatch options value

/-- `options_data` in `select_from_dropdown`: visible options with a nonempty
stripped text (auto_fill.py lines 733-742). -/
def sfdOptionsData (texts : List String) : List String :=
  texts.filter (fun t => !t.isEmpty)

/-- `valid` in `select_from_dropdown` (auto_fill.py line 747). -/
def sfdValid (texts : List String) : List String :=
  (sfdOptionsData texts).filter (fun t => !placeholderTexts.contains (pyLower t))

/-- The exact-match / partial-match / fallback sequence of
`select_from_dropdown` (auto_fill.py lines 758-782).  Unlike the native-select
branch, the partial match here is bidirectional. -/
def sfdMatch (texts : List String) (value : String) : Option String :=
  match (sfdOptionsData texts).find? (fun t => pyLower value == pyLower t) with
  | some t => some t
  | none =>
    match (sfdOptionsData texts).find?
        (fun t => strContains (pyLower t) (pyLower value)
          || strContains (pyLower value) (pyLower t)) with
    | some t => some t
    | none => (sfdValid texts).head?

/-- `select_from_dropdown` (auto_fill.py lines 730-785): option selection
inside an opened custom dropdown.  `texts` holds the stripped rendered texts
of the visible option elements; the result is the text of the clicked option
(`none` when the Python code returns `False`). -/
def select_from_dropdown (texts : List String) (value : String) : Option String :=
  if (sfdOptionsData texts).isEmpty then none
  else if value.isEmpty then
    match (sfdValid texts).head? with
    | some v => some v
    | none => sfdMatch texts value
  else sfdMatch texts value

/-- The five opener strategies of the custom-dropdown loop in
`fill_any_dropdown` (auto_fill.py lines 641-721), in source order. -/
inductive DropStrategy
  | directClick
  | parentClick
  | arrowClick
  | keyboardKeys
  | jsEvents
deriving DecidableEq, Repr

/-- The fixed strategy sequence tried by each round of the opener. -/
def strategyOrder : List DropStrategy :=
  [.directClick, .parentClick, .arrowClick, .keyboardKeys, .jsEvents]

/-- Environment of one opener round: the visible option/listitem texts the DOM
poll finds after each strategy action.  `afterArrows` has one entry per
displayed arrow/icon element clicked by strategy 3; keyboard strategy polls
after SPACE and again after ENTER. -/
structure OpenerRound where
  afterDirect : List String
  afterParent : List String
  afterArrows : List (List String)
  afterSpace : List String
  afterEnter : List String
  afterJs : List String

/-- The visible options revealed by one strategy in a round (`none` when the
poll finds no visible option/listitem elements and the strategy fails). -/
def visibleAfter (r : OpenerRound) : DropStrategy → Option (List String)
  | .directClick => if r.afterDirect.isEmpty then none else some r.afterDirect
  | .parentClick => if r.afterParent.isEmpty then none else some r.afterParent
  | .arrowClick => r.afterArrows.find? (fun l => !l.isEmpty)
  | .keyboardKeys =>
    if !r.afterSpace.isEmpty then some r.afterSpace
    else if !r.afterEnter.isEmpty then some r.afterEnter
    else none
  | .jsEvents => if r.afterJs.isEmpty then none else some r.afterJs

/-- Try the strategies of one round in order; the first strategy that reveals
visible options wins.  Also returns the list of strategies actually tried. -/
def tryStrategies (r : OpenerRound) : List DropStrategy → Option (List String) × List DropStrategy
  | [] => (none, [])
  | s :: rest =>
    match visibleAfter r s with
    | some opts => (some opts, [s])
    | none =>
      let t := tryStrategies r rest
      (t.1, s :: t.2)

/-- The retry loop of the custom-dropdown opener: round `k`, then `k+1`, ...
while fuel lasts.  On the first successful strategy it proceeds immediately to
`select_from_dropdown`.  Also returns, per round performed, the strategies
tried in that round. -/
def openCustomDropdownGo (rounds : Nat → OpenerRound) (value : String) :
    Nat → Nat → Bool × List (List DropStrategy)
  | _, 0 => (false, [])
  | k, fuel + 1 =>
    match tryStrategies (rounds k) strategyOrder with
    | (some opts, tried) => ((select_from_dropdown opts value).isSome, [tried])
    | (none, tried) =>
      let r := openCustomDropdownGo rounds value (k + 1) fuel
      (r.1, tried :: r.2)

/-- The custom-dropdown part of `fill_any_dropdown` (auto_fill.py lines
639-727): up to `max_retries` rounds (default 5) of the five strategies; if no
strategy ever reveals visible options the call returns `False`. -/
def fill_any_dropdown_custom (rounds : Nat → OpenerRound) (value : String)
    (max_retries : Nat) : Bool × List (List DropStrategy) :=
  openCustomDropdownGo rounds value 0 max_retries

/-- One mapped field as handed to `fill_field`: the keys read from
`field_info` with their source defaults (auto_fill.py lines 801-806). -/
structure FieldInfo where
  selector : String
  selectorType : String
  action : String
  value : String
  label : String
  fieldType : String
deriving DecidableEq, Repr

/-- The live element attributes inspected by `fill_field` after resolution
(auto_fill.py lines 868-872), plus its checked state for checkboxes/radios. -/
structure Elem where
  tagName : String
  etype : String
  role : String
  className : String
  readonlyAttr : String
  ariaHaspopup : String
  checked : Bool
deriving DecidableEq, Repr

/-- Browser / OS effects of `fill_field`, passed explicitly: `os.path.abspath`,
`os.path.exists`, the element-resolution result (primary selector lookup or
the heuristic label/file-input fallbacks), the outcome of a delegated
`fill_any_dropdown` call (a function of resolved value and label), and
`random.randint` for `generate_fallback`. -/
structure FillEnv where
  abspath : String → String
  pathExists : String → Bool
  findElem : Option Elem
  dropdownFill : String → String → Bool
  randInt : Nat → Nat → Nat

/-- Observable outcome of one `fill_field` call: the returned boolean, the
state of the located element afterwards, the number of clicks dispatched to
it, and the text sent to it via `send_keys` (for text-like branches). -/
structure FillResult where
  ok : Bool
  elemAfter : Option Elem
  clicks : Nat
  typed : Option String
deriving DecidableEq, Repr

/-- `generate_fallback` (auto_fill.py lines 989-995), with `random.randint`
supplied by the environment. -/
def generate_fallback (randInt : Nat → Nat → Nat) (label fieldType : String) : String :=
  if strContains (pyLower label) "email" then
    "test" ++ toString (randInt 1000 9999) ++ "@example.com"
  else if strContains (pyLower label) "phone" then
    "+1-555-" ++ toString (randInt 100 999) ++ "-" ++ toString (randInt 1000 9999)
  else if strContains (pyLower label) "name" then "Test User"
  else if fieldType == "number" then toString (randInt 1 10)
  else "Test Value"

/-- The upload value-resolution step of `fill_field` (auto_fill.py lines
811-825): for upload/file fields the value is replaced by an absolute path. -/
def resolve_upload_value (f : FieldInfo) (resume_path : String)
    (cover_letter_path : Option String) (abspath : String → String) : String :=
  if f.action == "upload" || f.fieldType == "file" then
    if f.value == "RESUME_FILE" || strContains (pyLower f.label) "resume" then
      abspath resume_path
    else
      match cover_letter_path with
      | some clp =>
        if f.value == "COVER_LETTER_FILE" then abspath clp
        else if strContains (pyLower f.label) "cover"
            || strContains (pyLower f.label) "letter" then abspath clp
        else abspath resume_path
      | none => abspath resume_path
  else f.value

/-- The `is_dropdown` classification of `fill_field` (auto_fill.py lines
925-933). -/
def isDropdownElem (elem : Elem) (action : String) : Bool :=
  pyLower elem.tagName == "select"
    || strContains (pyLower elem.className) "select"
    || strContains (pyLower elem.className) "dropdown"
    || elem.role == "combobox"
    || elem.readonlyAttr == "true"
    || (["listbox", "menu", "true"] : List String).contains elem.ariaHaspopup
    || action == "select"

/-- `fill_field` (auto_fill.py lines 799-986).  Resolves the upload value, then
dispatches on the located element: file upload first (returns `False` when the
resolved path is empty or does not exist, `True` on every other non-exception
path), then dropdown (delegated to `fill_any_dropdown`), checkbox (clicked
only when unchecked), radio (always clicked), textarea and text inputs (typing
the value or a generated fallback), and the final catch-all typing branch. -/
def fill_field (env : FillEnv) (f : FieldInfo) (resume_path : String)
    (cover_letter_path : Option String) : FillResult :=
  let value := resolve_upload_value f resume_path cover_letter_path env.abspath
  match env.findElem with
  | none => ⟨false, none, 0, none⟩
  | some elem =>
    if elem.etype == "file" || f.action == "upload" then
      if value.isEmpty || !env.pathExists value then ⟨false, some elem, 0, none⟩
      else ⟨true, some elem, 0, some value⟩
    else if isDropdownElem elem f.action then
      ⟨env.dropdownFill value f.label, some elem, 0, none⟩
    else if elem.etype == "checkbox" then
      if !elem.checked then ⟨true, some { elem with checked := true }, 1, none⟩
      else ⟨true, some elem, 0, none⟩
    else if elem.etype == "radio" then
      ⟨true, some { elem with checked := true }, 1, none⟩
    else if pyLower elem.tagName == "textarea" then
      let v := if value.isEmpty then
        "I am interested in this position and believe I would be a valuable addition."
        else value
      ⟨true, some elem, 0, some v⟩
    else if pyLower elem.tagName == "input"
        || (["text", "email", "tel", "number", "url"] : List String).contains elem.etype then
      let v := if value.isEmpty then generate_fallback env.randInt f.label elem.etype else value
      ⟨true, some elem, 0, some v⟩
    else
      ⟨true, some elem, 0, some (if value.isEmpty then "Test" else value)⟩

/-- One DOM input/select/textarea control as seen by the in-page extraction
script of `extract_form_structure` (auto_fill.py lines 455-492), together with
the document context its label resolution consults. -/
structure DomElement where
  tagName : String
  etype : String
  hasOffsetParent : Bool
  id : String
  name : String
  placeholder : String
  requiredProp : Bool
  ariaRequired : String
  role : String
  labelForId : Option String
  ancestorLabel : Option String
  ariaLabel : String
  options : List (String × String)
  inForm : Bool
deriving DecidableEq, Repr

/-- One entry of the extraction output (the `field` object built by
`extractField` in the injected script). -/
structure ExtractedField where
  tag : String
  etype : String
  id : String
  name : String
  placeholder : String
  required : Bool
  role : String
  label : String
  options : Option (List (String × String))
  selector : Option (String × String)
deriving DecidableEq, Repr

/-- The label-resolution chain of the extraction script (auto_fill.py lines
467-477): label-for association, wrapping ancestor label, aria-label,
placeholder, empty string. -/
def resolveLabel (el : DomElement) : String :=
  let l1 := if el.id != "" then
    (match el.labelForId with
     | some t => pyStrip t
     | none => "")
    else ""
  let l2 := if l1 == "" then
    (match el.ancestorLabel with
     | some t => pyStrip t
     | none => "")
    else l1
  if l2 == "" then (if el.ariaLabel != "" then el.ariaLabel else el.placeholder) else l2

/-- `extractField` of the injected script (auto_fill.py lines 455-492):
hidden controls (`type=hidden` or without an offset parent) yield `null`. -/
def extractField (el : DomElement) : Option ExtractedField :=
  if el.etype == "hidden" || !el.hasOffsetParent then none
  else some {
    tag := pyLower el.tagName
    etype := el.etype
    id := el.id
    name := el.name
    placeholder := el.placeholder
    required := el.requiredProp || el.ariaRequired == "true"
    role := el.role
    label := resolveLabel el
    options := if el.tagName == "SELECT" then
      some (el.options.map (fun p => (p.1, pyStrip p.2))) else none
    selector := if el.id != "" then some (el.id, "id")
      else if el.name != "" then some (el.name, "name")
      else none }

/-- The extraction result: per-form field lists (forms with no extracted
fields are dropped) plus the standalone fields. -/
structure ExtractResult where
  forms : List (List ExtractedField)
  standalone : List ExtractedField
deriving DecidableEq, Repr

/-- `extract_form_structure` (auto_fill.py lines 433-503): `formEls` holds the
controls found inside each `<form>`, `allEls` every control in the document
(standalone pass keeps those with no enclosing form). -/
def extract_form_structure (formEls : List (List DomElement))
    (allEls : List DomElement) : ExtractResult :=
  { forms := ((formEls.map (fun form => form.filterMap extractField)).filter
      (fun fs => !fs.isEmpty))
    standalone := (allEls.filter (fun el => !el.inForm)).filterMap extractField }

/-- All fields reported by an extraction pass, in output order. -/
def allExtractedFields (r : ExtractResult) : List ExtractedField :=
  r.forms.flatten ++ r.standalone

/-- One page element as seen by the `check_errors` scan: which of the three
XPath selectors (error class, invalid class, alert role) match it, whether it
is displayed, and its rendered text. -/
structure PageElem where
  inErrorClass : Bool
  inInvalidClass : Bool
  hasAlertRole : Bool
  displayed : Bool
  text : String
deriving DecidableEq, Repr

/-- The inner collection loop of `check_errors` over one selector match list
(auto_fill.py lines 1120-1126): keep the stripped text of displayed elements
when it is nonempty and shorter than 200 characters. -/
def collectVisibleErrors (elems : List PageElem) : List String :=
  elems.filterMap (fun e =>
    if e.displayed then
      if !(pyStrip e.text).isEmpty && (pyStrip e.text).length < 200 then
        some (pyStrip e.text)
      else none
    else none)

/-- `check_errors` (auto_fill.py lines 1111-1128): scan the three selectors in
order and concatenate the collected texts. -/
def check_errors (page : List PageElem) : List String :=
  collectVisibleErrors (page.filter (fun e => e.inErrorClass))
    ++ collectVisibleErrors (page.filter (fun e => e.inInvalidClass))
    ++ collectVisibleErrors (page.filter (fun e => e.hasAlertRole))

/-- Per-attempt outcomes of the submission retry loop, as functions of the
attempt index: whether `attempt_submit` clicked something, whether
`detect_success` fired afterwards, and what `check_errors` collected. -/
structure SubmitEnv where
  submitted : Nat → Bool
  success : Nat → Bool
  errors : Nat → List String

/-- The error message appended when no submit control could be clicked. -/
def submitNoButtonMsg : String := "Could not find or click submit button"

/-- One pass of the submission retry loop of `fill_form_from_resume`
(auto_fill.py lines 1426-1483), at attempt index `k` with the given remaining
iteration fuel and the current `final_errors` list.  Returns the final
`submission_success` flag, the final `final_errors` list, and the number of
submit attempts performed.  Note `final_errors = check_errors(driver)`
replaces the list on every attempt. -/
def submitLoopGo (env : SubmitEnv) : Nat → Nat → List String → Bool × List String × Nat
  | _, 0, errs => (false, errs, 0)
  | k, fuel + 1, errs =>
    if !env.submitted k then (false, errs ++ [submitNoButtonMsg], 1)
    else if env.success k then (true, errs, 1)
    else
      let es := env.errors k
      if es.isEmpty then (true, es, 1)
      else if fuel == 0 then (false, es, 1)
      else
        let r := submitLoopGo env (k + 1) fuel es
        (r.1, r.2.1, r.2.2 + 1)

/-- The submission retry loop (auto_fill.py lines 1426-1483) with the bound
`max_submit_retries` (default 3), starting from an empty `final_errors`. -/
def submission_loop (env : SubmitEnv) (max_submit_retries : Nat) :
    Bool × List String × Nat :=
  submitLoopGo env 0 max_submit_retries []

/-! ## Helper lemmas -/

theorem mem_of_head?_eq_some {α : Type} {l : List α} {a : α} (h : l.head? = some a) :
    a ∈ l := by
  cases l with
  | nil => simp at h
  | cons x xs =>
    simp only [List.head?, Option.some.injEq] at h
    exact h ▸ List.mem_cons_self x xs

theorem mem_validOptions_not_placeholder {options : List String} {t : String}
    (h : t ∈ validOptions options) :
    placeholderTexts.contains (pyLower t) = false := by
  have h2 := (List.mem_filter.mp h).2
  simp only [Bool.and_eq_true, Bool.not_eq_true'] at h2
  exact h2.2

theorem mem_sfdValid_not_placeholder {texts : List String} {t : String}
    (h : t ∈ sfdValid texts) :
    placeholderTexts.contains (pyLower t) = false := by
  have h2 := (List.mem_filter.mp h).2
  simp only [Bool.not_eq_true'] at h2
  exact h2

theorem isEmpty_false_of_ne {s : String} (h : s ≠ "") : s.isEmpty = false := by
  cases hs : s.isEmpty
  · rfl
  · exact absurd ((String.isEmpty_iff _).mp hs) h

/-! ## C3 — native select precedence on a concrete instance -/

/-- C3: with native-select options `["Select...", "United States", "Canada"]`
and target value `"usa"`, the filler selects `"United States"` (here via the
first-non-placeholder step of the stated precedence, since neither the exact
nor the substring match fires), never the placeholder `"Select..."`. -/
theorem c3_native_select_usa :
    fill_native_select ["Select...", "United States", "Canada"] "usa"
      = some "United States" ∧
    fill_native_select ["Select...", "United States", "Canada"] "usa"
      ≠ some "Select..." := by decide

/-! ## C7 — placeholder options and auto-selection -/

/-- C7 counterexample: a native select whose options are all placeholders and
whose target value is empty auto-selects index 1, the placeholder `"choose"`,
so a placeholder option can be auto-selected by a fallback path. -/
theorem c7_counterexample :
    fill_native_select ["Select...", "choose"] "" = some "choose" ∧
    placeholderTexts.contains (pyLower "choose") = true := by decide

/-- C7 (amended): for native selects and opened custom dropdowns, the no-value
auto-selection path and the no-match fallback path never select a placeholder
option provided at least one non-placeholder option exists; when every option
is a placeholder the code can select one (native select: index 1). -/
theorem c7_no_placeholder_autoselect (options texts : List String) (value : String) :
    (validOptions options ≠ [] → ∀ t, fill_native_select options "" = some t →
      placeholderTexts.contains (pyLower t) = false)
    ∧ (value ≠ "" →
      options.find? (fun o => pyLower value == pyLower o) = none →
      options.find? (fun o => strContains (pyLower o) (pyLower value)) = none →
      ∀ t, fill_native_select options value = some t →
      placeholderTexts.contains (pyLower t) = false)
    ∧ (sfdValid texts ≠ [] → ∀ t, select_from_dropdown texts "" = some t →
      placeholderTexts.contains (pyLower t) = false)
    ∧ (value ≠ "" →
      (sfdOptionsData texts).find? (fun t => pyLower value == pyLower t) = none →
      (sfdOptionsData texts).find? (fun t => strContains (pyLower t) (pyLower value)
        || strContains (pyLower value) (pyLower t)) = none →
      ∀ t, select_from_dropdown texts value = some t →
      placeholderTexts.contains (pyLower t) = false) := by
  refine ⟨?_, ?_, ?_, ?_⟩
  · intro hval t h
    rcases hv : validOptions options with _ | ⟨v, vs⟩
    · exact absurd hv hval
    · rw [fill_native_select, hv] at h
      simp only [String.isEmpty, if_true, List.head?] at h
      injection h with h
      exact h ▸ mem_validOptions_not_placeholder (hv ▸ List.mem_cons_self v vs)
  · intro hval h1 h2 t h
    rw [fill_native_select, isEmpty_false_of_ne hval] at h
    simp only [Bool.false_eq_true, if_false] at h
    rw [nativeFallbackMatch, h1, h2] at h
    exact mem_validOptions_not_placeholder (mem_of_head?_eq_some h)
  · intro hval t h
    have hod : (sfdOptionsData texts).isEmpty = false := by
      cases ho : sfdOptionsData texts with
      | nil => exact absurd (by rw [sfdValid, ho]; rfl) hval
      | cons x xs => rfl
    rcases hv : sfdValid texts with _ | ⟨v, vs⟩
    · exact absurd hv hval
    · rw [select_from_dropdown, hod, hv] at h
      simp only [Bool.false_eq_true, if_false, String.isEmpty, if_true, List.head?] at h
      injection h with h
      exact h ▸ mem_sfdValid_not_placeholder (hv ▸ List.mem_cons_self v vs)
  · intro hval h1 h2 t h
    rw [select_from_dropdown] at h
    rcases ho : sfdOptionsData texts with _ | ⟨x, xs⟩
    · rw [ho] at h; simp at h
    · rw [ho] at h
      simp only [List.isEmpty, Bool.false_eq_true, if_false,
        isEmpty_false_of_ne hval] at h
      rw [sfdMatch, h1, h2] at h
      exact mem_sfdValid_not_placeholder (mem_of_head?_eq_some h)

/-- Witness for C7 (amended) at concrete inputs. -/
theorem c7_no_placeholder_autoselect_witness :
    fill_native_select ["Select...", "United States"] "" = some "United States" ∧
    placeholderTexts.contains (pyLower "United States") = false ∧
    select_from_dropdown ["Select...", "Yes"] "zzz" = some "Yes" ∧
    placeholderTexts.contains (pyLower "Yes") = false := by
  refine ⟨by decide, ?_, by decide, ?_⟩
  · exact (c7_no_placeholder_autoselect ["Select...", "United States"]
      ["Select...", "Yes"] "zzz").1 (by decide) "United States" (by decide)
  · exact (c7_no_placeholder_autoselect ["Select...", "United States"]
      ["Select...", "Yes"] "zzz").2.2.2 (by decide) (by decide) (by decide)
      "Yes" (by decide)

/-! ## C2 — custom dropdown opener retry bound -/

theorem tryStrategies_all_none {r : OpenerRound} (h : ∀ s, visibleAfter r s = none) :
    ∀ l, tryStrategies r l = (none, l) := by
  intro l
  induction l with
  | nil => rfl
  | cons s rest ih => simp [tryStrategies, h s, ih]

theorem openCustomDropdownGo_all_fail (rounds : Nat → OpenerRound) (value : String)
    (h : ∀ k s, visibleAfter (rounds k) s = none) :
    ∀ fuel k, openCustomDropdownGo rounds value k fuel
      = (false, List.replicate fuel strategyOrder) := by
  intro fuel
  induction fuel with
  | zero => intro k; rfl
  | succ n ih =>
    intro k
    simp [openCustomDropdownGo, tryStrategies_all_none (h k), ih (k + 1),
      List.replicate_succ]

/-- C2: when no opener strategy ever reveals a visible option/listitem
element, the custom-dropdown opener performs exactly `max_retries` rounds,
each round trying the fixed five-strategy sequence in source order, and then
returns false. -/
theorem c2_opener_bound (rounds : Nat → OpenerRound) (value : String) (n : Nat)
    (h : ∀ k s, visibleAfter (rounds k) s = none) :
    fill_any_dropdown_custom rounds value n
      = (false, List.replicate n strategyOrder) :=
  openCustomDropdownGo_all_fail rounds value h n 0

/-- A round environment in which every DOM poll comes back empty. -/
def silentRound : OpenerRound := ⟨[], [], [], [], [], []⟩

/-- Witness for C2 at the default bound of 5 rounds. -/
theorem c2_opener_bound_witness :
    fill_any_dropdown_custom (fun _ => silentRound) "x" 5
      = (false, List.replicate 5 strategyOrder) :=
  c2_opener_bound (fun _ => silentRound) "x" 5 (fun _ s => by cases s <;> rfl)

/-! ## fill_field: upload and checkbox behavior (C4, C6, C10) -/

theorem fill_field_checkbox_unchecked (env : FillEnv) (f : FieldInfo) (elem : Elem)
    (rp : String) (clp : Option String)
    (hfind : env.findElem = some elem)
    (hcb : elem.etype = "checkbox")
    (hact : f.action ≠ "upload")
    (hdd : isDropdownElem elem f.action = false)
    (hch : elem.checked = false) :
    fill_field env f rp clp = ⟨true, some { elem with checked := true }, 1, none⟩ := by
  have hact2 : (f.action == "upload") = false := beq_eq_false_iff_ne.mpr hact
  simp [fill_field, hfind, hcb, hact2, hdd, hch]

theorem fill_field_checkbox_checked (env : FillEnv) (f : FieldInfo) (elem : Elem)
    (rp : String) (clp : Option String)
    (hfind : env.findElem = some elem)
    (hcb : elem.etype = "checkbox")
    (hact : f.action ≠ "upload")
    (hdd : isDropdownElem elem f.action = false)
    (hch : elem.checked = true) :
    fill_field env f rp clp = ⟨true, some elem, 0, none⟩ := by
  have hact2 : (f.action == "upload") = false := beq_eq_false_iff_ne.mpr hact
  simp [fill_field, hfind, hcb, hact2, hdd, hch]

/-- C4: for a mapped field with `action="upload"` and `value="RESUME_FILE"`,
the filler replaces the value with `abspath(resume_path)` before interacting,
and the fill returns false whenever that absolute path does not exist. -/
theorem c4_upload_resolution (env : FillEnv) (f : FieldInfo) (rp : String)
    (clp : Option String)
    (ha : f.action = "upload") (hv : f.value = "RESUME_FILE")
    (hfs : env.pathExists (env.abspath rp) = false) :
    resolve_upload_value f rp clp env.abspath = env.abspath rp
    ∧ (fill_field env f rp clp).ok = false := by
  have hres : resolve_upload_value f rp clp env.abspath = env.abspath rp := by
    simp [resolve_upload_value, ha, hv]
  refine ⟨hres, ?_⟩
  cases henv : env.findElem with
  | none => simp [fill_field, henv]
  | some elem => simp [fill_field, henv, hres, ha, hfs]

/-- Environment for the C4 witness: a file input is found but the resolved
absolute resume path does not exist. -/
def c4Env : FillEnv :=
  ⟨fun s => "/abs/" ++ s, fun _ => false,
    some ⟨"input", "file", "", "", "", "", false⟩, fun _ _ => true, fun a _ => a⟩

/-- Mapped field for the C4 witness. -/
def c4Field : FieldInfo := ⟨"resume_upload", "id", "upload", "RESUME_FILE", "Resume", "file"⟩

/-- Witness for C4 at concrete inputs. -/
theorem c4_upload_resolution_witness :
    resolve_upload_value c4Field "r.pdf" none c4Env.abspath = c4Env.abspath "r.pdf"
    ∧ (fill_field c4Env c4Field "r.pdf" none).ok = false :=
  c4_upload_resolution c4Env c4Field "r.pdf" none rfl rfl rfl

/-- C6: for a field dispatched to the checkbox branch, the fill succeeds and
leaves the box checked; an already-checked box is never clicked, and filling
twice leaves the element in the same state as filling once. -/
theorem c6_checkbox_idempotent (env : FillEnv) (f : FieldInfo) (elem : Elem)
    (rp : String) (clp : Option String)
    (hfind : env.findElem = some elem)
    (hcb : elem.etype = "checkbox")
    (hact : f.action ≠ "upload")
    (hdd : isDropdownElem elem f.action = false) :
    (fill_field env f rp clp).ok = true
    ∧ (fill_field env f rp clp).elemAfter = some { elem with checked := true }
    ∧ (elem.checked = true → (fill_field env f rp clp).clicks = 0)
    ∧ (fill_field { env with findElem := (fill_field env f rp clp).elemAfter }
        f rp clp).elemAfter = (fill_field env f rp clp).elemAfter := by
  cases hch : elem.checked
  · have h1 := fill_field_checkbox_unchecked env f elem rp clp hfind hcb hact hdd hch
    have h2 := fill_field_checkbox_checked
      { env with findElem := some { elem with checked := true } } f
      { elem with checked := true } rp clp rfl hcb hact hdd rfl
    refine ⟨by rw [h1], by rw [h1], ?_, by simp only [h1]; rw [h2]⟩
    intro hc
    exact absurd hc (by simp)
  · have heq : ({ elem with checked := true } : Elem) = elem := by rw [← hch]
    have h1 := fill_field_checkbox_checked env f elem rp clp hfind hcb hact hdd hch
    have h2 := fill_field_checkbox_checked { env with findElem := some elem } f elem rp clp
      rfl hcb hact hdd hch
    refine ⟨by rw [h1], by rw [h1, heq], fun _ => by rw [h1],
      by simp only [h1]; rw [h2]⟩

/-- Already-checked checkbox element used by the checkbox witnesses. -/
def cbElem : Elem := ⟨"input", "checkbox", "", "", "", "", true⟩

/-- Environment for the checkbox witnesses. -/
def cbEnv : FillEnv := ⟨fun s => s, fun _ => true, some cbElem, fun _ _ => true, fun a _ => a⟩

/-- Mapped field for the checkbox witnesses. -/
def cbField : FieldInfo := ⟨"agree", "id", "check", "No", "I agree", "checkbox"⟩

/-- Witness for C6 at concrete inputs. -/
theorem c6_checkbox_idempotent_witness :
    (fill_field cbEnv cbField "r.pdf" none).ok = true
    ∧ (fill_field cbEnv cbField "r.pdf" none).elemAfter
        = some { cbElem with checked := true }
    ∧ (cbElem.checked = true → (fill_field cbEnv cbField "r.pdf" none).clicks = 0)
    ∧ (fill_field { cbEnv with findElem := (fill_field cbEnv cbField "r.pdf" none).elemAfter }
        cbField "r.pdf" none).elemAfter = (fill_field cbEnv cbField "r.pdf" none).elemAfter :=
  c6_checkbox_idempotent cbEnv cbField cbElem "r.pdf" none rfl rfl (by decide) (by decide)

/-- C10: a field dispatched to the checkbox branch never consults its mapped
value: the fill result is identical for any two values, succeeds, and types
nothing. -/
theorem c10_checkbox_value_ignored (env : FillEnv) (f : FieldInfo) (elem : Elem)
    (rp : String) (clp : Option String) (v w : String)
    (hfind : env.findElem = some elem)
    (hcb : elem.etype = "checkbox")
    (hact : f.action ≠ "upload")
    (hdd : isDropdownElem elem f.action = false) :
    fill_field env { f with value := v } rp clp
      = fill_field env { f with value := w } rp clp
    ∧ (fill_field env { f with value := v } rp clp).ok = true
    ∧ (fill_field env { f with value := v } rp clp).typed = none := by
  cases hch : elem.checked
  · have h1 := fill_field_checkbox_unchecked env { f with value := v } elem rp clp
      hfind hcb hact hdd hch
    have h2 := fill_field_checkbox_unchecked env { f with value := w } elem rp clp
      hfind hcb hact hdd hch
    exact ⟨h1.trans h2.symm, by rw [h1], by rw [h1]⟩
  · have h1 := fill_field_checkbox_checked env { f with value := v } elem rp clp
      hfind hcb hact hdd hch
    have h2 := fill_field_checkbox_checked env { f with value := w } elem rp clp
      hfind hcb hact hdd hch
    exact ⟨h1.trans h2.symm, by rw [h1], by rw [h1]⟩

/-- Witness for C10 at concrete inputs: value "No" and the empty value give
the same successful, non-typing fill. -/
theorem c10_checkbox_value_ignored_witness :
    fill_field cbEnv { cbField with value := "No" } "r.pdf" none
      = fill_field cbEnv { cbField with value := "" } "r.pdf" none
    ∧ (fill_field cbEnv { cbField with value := "No" } "r.pdf" none).ok = true
    ∧ (fill_field cbEnv { cbField with value := "No" } "r.pdf" none).typed = none :=
  c10_checkbox_value_ignored cbEnv cbField cbElem "r.pdf" none "No" ""
    rfl rfl (by decide) (by decide)

/-! ## C5 — hidden controls are excluded from extraction -/

/-- C5: every field in the extractor output originates from a control that is
not `type=hidden` and has an offset parent; hidden or unrendered controls are
never reported. -/
theorem c5_hidden_excluded (formEls : List (List DomElement)) (allEls : List DomElement)
    (f : ExtractedField)
    (hf : f ∈ allExtractedFields (extract_form_structure formEls allEls)) :
    ∃ el, (el ∈ formEls.flatten ∨ el ∈ allEls) ∧ extractField el = some f
      ∧ el.etype ≠ "hidden" ∧ el.hasOffsetParent = true := by
  have hvis : ∀ el : DomElement, extractField el = some f →
      el.etype ≠ "hidden" ∧ el.hasOffsetParent = true := by
    intro el h
    rw [extractField] at h
    split at h
    · cases h
    · next hc =>
      simp only [Bool.or_eq_true, beq_iff_eq, Bool.not_eq_true', not_or] at hc
      exact ⟨hc.1, by simpa using hc.2⟩
  simp only [allExtractedFields, extract_form_structure] at hf
  rcases List.mem_append.mp hf with hin | hin
  · rw [List.mem_flatten] at hin
    obtain ⟨fs, hfs, hffs⟩ := hin
    have hfs2 := (List.mem_filter.mp hfs).1
    rw [List.mem_map] at hfs2
    obtain ⟨form, hform, rfl⟩ := hfs2
    rw [List.mem_filterMap] at hffs
    obtain ⟨el, helform, hel⟩ := hffs
    exact ⟨el, Or.inl (List.mem_flatten.mpr ⟨form, hform, helform⟩), hel,
      (hvis el hel).1, (hvis el hel).2⟩
  · rw [List.mem_filterMap] at hin
    obtain ⟨el, helin, hel⟩ := hin
    exact ⟨el, Or.inr (List.mem_filter.mp helin).1, hel,
      (hvis el hel).1, (hvis el hel).2⟩

/-- A visible email input, for the C5 witness. -/
def visibleEl : DomElement :=
  ⟨"INPUT", "text", true, "email", "email", "Email", true, "", "",
    some "Email address", none, "", [], true⟩

/-- A hidden CSRF input, for the C5 witness. -/
def hiddenEl : DomElement :=
  ⟨"INPUT", "hidden", true, "csrf", "csrf", "", false, "", "",
    none, none, "", [], true⟩

/-- The field extracted from `visibleEl`. -/
def c5EmailField : ExtractedField :=
  ⟨"input", "text", "email", "email", "Email", true, "", "Email address",
    none, some ("email", "id")⟩

/-- Witness for C5 at concrete inputs: the visible field is reported, and the
theorem yields its visible source element. -/
theorem c5_hidden_excluded_witness :
    c5EmailField ∈ allExtractedFields
      (extract_form_structure [[visibleEl, hiddenEl]] [visibleEl, hiddenEl])
    ∧ ∃ el, (el ∈ ([[visibleEl, hiddenEl]] : List (List DomElement)).flatten
        ∨ el ∈ [visibleEl, hiddenEl])
      ∧ extractField el = some c5EmailField
      ∧ el.etype ≠ "hidden" ∧ el.hasOffsetParent = true :=
  ⟨by decide, c5_hidden_excluded [[visibleEl, hiddenEl]] [visibleEl, hiddenEl]
    c5EmailField (by decide)⟩

/-! ## C9 — post-submit error collection -/

/-- A 200-character error text. -/
def longErrText : String := String.join (List.replicate 20 "0123456789")

set_option maxRecDepth 8000 in
/-- C9 counterexample: a displayed error element whose (stripped, nonempty)
text has length 200 is dropped entirely by `check_errors` — its text is not
collected at all, truncated or otherwise, so collected messages are not
truncations of every visible error text. -/
theorem c9_counterexample :
    (⟨true, false, false, true, longErrText⟩ : PageElem).displayed = true
    ∧ (pyStrip longErrText).isEmpty = false
    ∧ check_errors [⟨true, false, false, true, longErrText⟩] = [] := by
  refine ⟨rfl, rfl, rfl⟩

/-- C9 (amended): `check_errors` collects exactly the stripped texts of
displayed elements matched by the error/invalid/alert selectors whose
stripped text is nonempty and shorter than 200 characters; longer texts are
dropped entirely (not truncated) and there is no cap on how many are
collected. -/
theorem c9_error_collection (page : List PageElem) :
    (∀ e, e ∈ page → e.displayed = true →
      (e.inErrorClass = true ∨ e.inInvalidClass = true ∨ e.hasAlertRole = true) →
      (pyStrip e.text).isEmpty = false → (pyStrip e.text).length < 200 →
      pyStrip e.text ∈ check_errors page)
    ∧ (∀ s, s ∈ check_errors page →
      s.length < 200 ∧ s.isEmpty = false
      ∧ ∃ e, e ∈ page ∧ e.displayed = true ∧ s = pyStrip e.text) := by
  constructor
  · intro e he hd hsel hne hlen
    have hmem : ∀ p : PageElem → Bool, p e = true →
        pyStrip e.text ∈ collectVisibleErrors (page.filter p) := by
      intro p hp
      rw [collectVisibleErrors, List.mem_filterMap]
      exact ⟨e, List.mem_filter.mpr ⟨he, hp⟩, by simp [hd, hne, decide_eq_true hlen]⟩
    rw [check_errors]
    rcases hsel with h | h | h
    · exact List.mem_append_left _ (List.mem_append_left _ (hmem _ h))
    · exact List.mem_append_left _ (List.mem_append_right _ (hmem _ h))
    · exact List.mem_append_right _ (hmem _ h)
  · intro s hs
    have hone : ∀ p : PageElem → Bool, s ∈ collectVisibleErrors (page.filter p) →
        s.length < 200 ∧ s.isEmpty = false
          ∧ ∃ e, e ∈ page ∧ e.displayed = true ∧ s = pyStrip e.text := by
      intro p hp
      rw [collectVisibleErrors, List.mem_filterMap] at hp
      obtain ⟨e, he, hsome⟩ := hp
      have hepage := (List.mem_filter.mp he).1
      split at hsome
      · split at hsome
        · next hcond =>
          rw [Option.some.injEq] at hsome
          subst hsome
          rw [Bool.and_eq_true, Bool.not_eq_true'] at hcond
          next hd => exact ⟨of_decide_eq_true hcond.2, hcond.1, e, hepage, hd, rfl⟩
        · cases hsome
      · cases hsome
    rw [check_errors] at hs
    rcases List.mem_append.mp hs with hs2 | hs2
    · rcases List.mem_append.mp hs2 with hs3 | hs3
      · exact hone _ hs3
      · exact hone _ hs3
    · exact hone _ hs2

/-- A displayed error element with short text, for the C9 witness. -/
def errSmallElem : PageElem := ⟨true, false, false, true, " Err "⟩

/-- Witness for C9 (amended) at concrete inputs. -/
theorem c9_error_collection_witness :
    pyStrip " Err " ∈ check_errors [errSmallElem]
    ∧ ((pyStrip " Err ").length < 200 ∧ (pyStrip " Err ").isEmpty = false
      ∧ ∃ e, e ∈ [errSmallElem] ∧ e.displayed = true ∧ pyStrip " Err " = pyStrip e.text) := by
  have h := c9_error_collection [errSmallElem]
  have h1 := h.1 errSmallElem (by decide) rfl (Or.inl rfl) (by decide) (by decide)
  exact ⟨h1, h.2 (pyStrip " Err ") h1⟩

/-! ## C1, C8 — submission retry loop -/

/-- An environment where every attempt submits, never succeeds, and reveals a
distinct error message per attempt. -/
def c1Env : SubmitEnv :=
  { submitted := fun _ => true
    success := fun _ => false
    errors := fun k => ["error message " ++ toString k] }

/-- C1 counterexample: every attempt reveals a fresh error and no success
indicator; the loop performs exactly 3 attempts, but the reported error list
carries only the final attempt's message — the error observed on attempt 0 is
absent, so the report is not the union of errors across all attempts. -/
theorem c1_counterexample :
    submission_loop c1Env 3 = (false, ["error message 2"], 3)
    ∧ c1Env.errors 0 = ["error message 0"]
    ∧ "error message 0" ∉ (submission_loop c1Env 3).2.1 := by decide

theorem submitLoopGo_errors_every_attempt (env : SubmitEnv)
    (hs : ∀ k, env.submitted k = true) (hns : ∀ k, env.success k = false)
    (he : ∀ k, env.errors k ≠ []) :
    ∀ n k errs, submitLoopGo env k (n + 1) errs = (false, env.errors (k + n), n + 1) := by
  have hempty : ∀ k, (env.errors k).isEmpty = false := by
    intro k
    cases hek : env.errors k
    · exact absurd hek (he k)
    · rfl
  intro n
  induction n with
  | zero =>
    intro k errs
    simp [submitLoopGo, hs k, hns k, hempty k]
  | succ n ih =>
    intro k errs
    have harith : k + 1 + n = k + (n + 1) := by omega
    have hf : ((n + 1 : Nat) == 0) = false := by simp
    rw [submitLoopGo]
    simp [hs k, hns k, hempty k, hf, ih (k + 1), harith]

/-- C1 (amended): if every attempt clicks submit, never sees a success
indicator, and always collects at least one error, the submission loop
performs exactly `max_submit_retries` attempts and reports terminal failure
whose error list is the one collected on the final attempt (earlier attempts'
errors are overwritten, not accumulated). -/
theorem c1_submit_retry_bound (env : SubmitEnv) (n : Nat)
    (hs : ∀ k, env.submitted k = true) (hns : ∀ k, env.success k = false)
    (he : ∀ k, env.errors k ≠ []) :
    submission_loop env (n + 1) = (false, env.errors n, n + 1) := by
  have h := submitLoopGo_errors_every_attempt env hs hns he n 0 []
  simpa using h

/-- Witness for C1 (amended) at the default bound of 3 attempts. -/
theorem c1_submit_retry_bound_witness :
    submission_loop c1Env 3 = (false, c1Env.errors 2, 3) :=
  c1_submit_retry_bound c1Env 2 (fun _ => rfl) (fun _ => rfl)
    (fun _ => by simp [c1Env])

/-- C8: when a submit attempt clicks successfully and the post-submit check
finds neither a success indicator nor any visible error element, the loop
exits immediately with success reported true, after exactly one attempt. -/
theorem c8_ambiguous_success (env : SubmitEnv) (m : Nat) (hm : 0 < m)
    (h1 : env.submitted 0 = true) (h2 : env.success 0 = false)
    (h3 : env.errors 0 = []) :
    submission_loop env m = (true, [], 1) := by
  obtain ⟨n, rfl⟩ : ∃ n, m = n + 1 := ⟨m - 1, by omega⟩
  simp [submission_loop, submitLoopGo, h1, h2, h3]

/-- An environment whose first attempt submits with ambiguous outcome. -/
def c8Env : SubmitEnv := ⟨fun _ => true, fun _ => false, fun _ => []⟩

/-- Witness for C8 at the default bound of 3 attempts. -/
theorem c8_ambiguous_success_witness : submission_loop c8Env 3 = (true, [], 1) :=
  c8_ambiguous_success c8Env 3 (by omega) rfl rfl rfl

end AutoFill
